import Mathlib

/-!
Verification development for the invoice-automation frontend
(`js/config.js`, the API layer `api.js`, and the UI controller `app.js`).

The JavaScript is shallowly embedded: module-level mutable state becomes
explicit state records, DOM mutations become functional updates of those
records, and host primitives (`fetch`, `JSON.parse`, `response.json()`)
become explicit outcome parameters (`Except`-valued), since the client
treats them as external collaborators.  JS string truthiness (`x || y`)
is modelled on `Option String` with the empty string falsy, exactly as
the `||` chains in the source use it.
-/

namespace InvoiceAutomation

/-- A selected browser `File`: the UI reads only its `name` and `size`
(in bytes). -/
structure JsFile where
  name : String
  size : Nat
deriving DecidableEq, Repr

/-- The module-level selection state of `app.js`: `poPdf` (single,
nullable), `timesheetFiles` (ordered list, append/remove by index),
`templateFile` (single, nullable). -/
structure SelectionState where
  poPdf : Option JsFile
  timesheetFiles : List JsFile
  templateFile : Option JsFile
deriving DecidableEq, Repr

/-- The readiness value computed inside `updateGenerateBtn`:
`const ready = poPdf && timesheetFiles.length > 0 && templateFile`
(JS truthiness of the two nullable slots is `Option.isSome`). -/
def readyToSubmit (sel : SelectionState) : Bool :=
  sel.poPdf.isSome && decide (0 < sel.timesheetFiles.length) && sel.templateFile.isSome

/-- The DOM surface of `app.js` that the verified behaviour touches:
visibility of the status / results / error sections (`hidden` CSS class
present), the text nodes written by the handlers, and the `disabled`
attribute of the generate button.  Per-engineer card markup and the
download-button wiring of `showResults` mutate no state read anywhere
else and are outside every claim, so they are not carried in the record. -/
structure DomState where
  statusHidden : Bool
  resultsHidden : Bool
  errorHidden : Bool
  statusText : String
  errorText : String
  grandTotalText : String
  contractNumberText : String
  generateBtnDisabled : Bool
deriving DecidableEq, Repr

/-- `updateGenerateBtn` from `app.js`: `generateBtn.disabled = !ready`. -/
def updateGenerateBtn (sel : SelectionState) (d : DomState) : DomState :=
  { d with generateBtnDisabled := !(readyToSubmit sel) }

/-- C1: the generate (submit) control is enabled after `updateGenerateBtn`
iff a PO file is present, a template file is present, and the timesheet
list is non-empty; `updateGenerateBtn` computes exactly this readiness
predicate from the three selection slots. -/
theorem updateGenerateBtn_enabled_iff_ready (sel : SelectionState) (d : DomState) :
    ((updateGenerateBtn sel d).generateBtnDisabled = false ↔
      (sel.poPdf.isSome ∧ sel.templateFile.isSome ∧ sel.timesheetFiles ≠ [])) ∧
    (updateGenerateBtn sel d).generateBtnDisabled = !(readyToSubmit sel) := by
  refine ⟨?_, rfl⟩
  simp only [updateGenerateBtn, readyToSubmit, Bool.not_eq_false',
    Bool.and_eq_true, decide_eq_true_eq]
  constructor
  · rintro ⟨⟨hpo, hlen⟩, htpl⟩
    exact ⟨hpo, htpl, List.ne_nil_of_length_pos hlen⟩
  · rintro ⟨hpo, htpl, hne⟩
    exact ⟨⟨hpo, List.length_pos.mpr hne⟩, htpl⟩

/-- One step of `toFixed(1)` as applied in `renderFileList`: the source
computes `(f.size / k).toFixed(1)` with `k` either `1024` or `1024*1024`.
Since `size / k` is exactly representable for a power-of-two `k`,
`toFixed(1)` is exact decimal rounding to one place, ties away from zero
picking the larger value: `n = floor(size*10/k + 1/2)`. -/
def toFixed1Div (size k : Nat) : String :=
  let n := (size * 10 + k / 2) / k
  Nat.repr (n / 10) ++ "." ++ Nat.repr (n % 10)

/-- The size label computed in `renderFileList`:
`f.size < 1024*1024 ? (f.size/1024).toFixed(1)+" KB" : (f.size/(1024*1024)).toFixed(1)+" MB"`. -/
def formatFileSize (size : Nat) : String :=
  if size < 1024 * 1024 then toFixed1Div size 1024 ++ " KB"
  else toFixed1Div size (1024 * 1024) ++ " MB"

/-- One `.file-item` row produced by `renderFileList`: its displayed name
and size label, and the index `i` captured by the closure attached to its
`.file-remove` button (`onRemove(i)`). -/
structure RenderedFileItem where
  fileName : String
  sizeLabel : String
  boundIndex : Nat
deriving DecidableEq, Repr

/-- `renderFileList(container, files, onRemove)` from `app.js`: clears the
container and appends one row per file, the row at position `i` holding a
remove handler bound to index `i`.  (The `if (!f) return;` null guard is
vacuous here since the embedded list holds no nulls, and every caller
passes an array, so the `Array.isArray` branch is the identity.) -/
def renderFileList (files : List JsFile) : List RenderedFileItem :=
  files.enum.map fun p =>
    { fileName := p.2.name, sizeLabel := formatFileSize p.2.size, boundIndex := p.1 }

/-- `timesheetFiles.splice(idx, 1)`: removes the element at `idx` when in
range, removes nothing otherwise. -/
def jsSplice (l : List α) (i : Nat) : List α :=
  l.take i ++ l.drop (i + 1)

/-- A JavaScript runtime error surfaced by an event handler. -/
inductive JsError where
  | referenceError (msg : String)
deriving DecidableEq, Repr

/-- The timesheet panel: the module-level `timesheetFiles` array together
with the current DOM contents of `#ts-file-list`. -/
structure TsPanel where
  timesheetFiles : List JsFile
  rendered : List RenderedFileItem
deriving DecidableEq, Repr

/-- The timesheet `onFiles` callback in `app.js`: pushes every dropped
file onto `timesheetFiles`, then re-renders the list.  (The trailing
`updateGenerateBtn()` call acts on the button, tracked separately.) -/
def tsAddFiles (fs : List JsFile) (p : TsPanel) : TsPanel :=
  let files := p.timesheetFiles ++ fs
  { timesheetFiles := files, rendered := renderFileList files }

/-- The removal callback the timesheet `onFiles` handler passes to
`renderFileList` (app.js lines 103-107), run when the remove button of
row `idx` is clicked.  `timesheetFiles.splice(idx, 1)` executes first;
the next statement evaluates `arguments.callee`, but the callback and
every enclosing scope are arrow functions, which have no `arguments`
binding, so a `ReferenceError` is thrown after the splice and the
handler aborts before the `renderFileList` re-render and
`updateGenerateBtn` run.  The result pairs the mutated global state with
the error that escapes the handler. -/
def tsRemoveClick (idx : Nat) (p : TsPanel) : TsPanel × Option JsError :=
  ({ p with timesheetFiles := jsSplice p.timesheetFiles idx },
   some (.referenceError "arguments is not defined"))

/-- C2 (code bug): with two timesheet files rendered, clicking remove on
index 0 splices the backing array down to one file but throws a
`ReferenceError` before re-rendering, so the DOM still shows both rows
with their old bound indices — not the `n-1 = 1` freshly bound rows the
claim requires. -/
theorem tsRemoveClick_throws_without_rerender :
    (tsRemoveClick 0 (tsAddFiles [⟨"a.xlsx", 1000⟩, ⟨"b.xlsx", 2000⟩] ⟨[], []⟩)).1.timesheetFiles
        = [⟨"b.xlsx", 2000⟩]
    ∧ ((tsRemoveClick 0 (tsAddFiles [⟨"a.xlsx", 1000⟩, ⟨"b.xlsx", 2000⟩] ⟨[], []⟩)).1.rendered.length
        = 2)
    ∧ ((tsRemoveClick 0 (tsAddFiles [⟨"a.xlsx", 1000⟩, ⟨"b.xlsx", 2000⟩] ⟨[], []⟩)).1.rendered.map
          RenderedFileItem.boundIndex = [0, 1])
    ∧ (tsRemoveClick 0 (tsAddFiles [⟨"a.xlsx", 1000⟩, ⟨"b.xlsx", 2000⟩] ⟨[], []⟩)).2
        = some (.referenceError "arguments is not defined") := by
  refine ⟨rfl, rfl, rfl, rfl⟩

/-- The `ok` getter of a Fetch `Response`: status in the inclusive range
200-299. -/
def respOk (status : Nat) : Bool :=
  decide (200 ≤ status) && decide (status < 300)

/-- `checkHealth` from `api.js`: fetches the health endpoint and returns
`res.ok`; any rejection of the fetch is caught and yields `false`.  The
fetch outcome is a parameter: `.ok status` for a delivered response,
`.error msg` for a rejected promise.  The function is total — it never
throws. -/
def checkHealth : Except String Nat → Bool
  | .ok status => respOk status
  | .error _ => false

/-- The health indicator DOM: the class of `#health-dot` and the text of
`#health-label`. -/
structure HealthIndicator where
  healthDotClass : String
  healthLabelText : String
deriving DecidableEq, Repr

/-- `checkBackendHealth` from `app.js`: awaits `checkHealth` and writes
the dot class and label from the boolean. -/
def checkBackendHealth (fetched : Except String Nat) (h : HealthIndicator) : HealthIndicator :=
  let ok := checkHealth fetched
  { h with
    healthDotClass := "health-dot " ++ (if ok then "healthy" else "unhealthy"),
    healthLabelText := if ok then "API Connected" else "API Offline" }

/-- C7: every failure of the health fetch makes `checkHealth` return
`false` (it is a total function, so it never throws) and drives the
indicator to the offline state; and `checkHealth` returns `true` exactly
when the HTTP status is in the ok range 200-299. -/
theorem checkHealth_false_on_failure_and_ok_range :
    (∀ e : String, checkHealth (.error e) = false) ∧
    (∀ status : Nat, checkHealth (.ok status) = true ↔ 200 ≤ status ∧ status < 300) ∧
    (∀ (e : String) (h : HealthIndicator),
        (checkBackendHealth (.error e) h).healthLabelText = "API Offline"
        ∧ (checkBackendHealth (.error e) h).healthDotClass = "health-dot unhealthy") := by
  refine ⟨fun _ => rfl, fun status => ?_, fun _ _ => ⟨rfl, rfl⟩⟩
  simp [checkHealth, respOk]

/-- The aggregate summary of a generation response, restricted to the
fields the verified rendering reads.  `grand_total_usd` is carried in
whole cents (the backend reports a USD amount; every amount of whole
cents is exactly representable, and the concrete values in the spec are
whole cents). -/
structure Summary where
  grand_total_usd_cents : Nat
  contract_number : String
deriving DecidableEq, Repr

/-- The JSON body of a `/api/v1/generate` response, as the client reads
it: the success flag and optional `errors` list consumed by the click
handler, the optional `detail` field consumed by the error
normalization in `generateInvoice`, and the summary consumed by
`showResults`. -/
structure ApiBody where
  success : Bool
  errors : Option (List String)
  detail : Option String
  summary : Summary
deriving DecidableEq, Repr

/-- JS string truthiness on a possibly-absent string: `undefined` and
`""` are falsy, everything else truthy. -/
def jsTruthy : Option String → Option String
  | some s => if s = "" then none else some s
  | none => none

/-- The JS idiom `a || b` for a possibly-absent string `a` and a string
fallback `b`. -/
def jsOrElse (a : Option String) (b : String) : String :=
  match jsTruthy a with
  | some s => s
  | none => b

/-- The error normalization of `generateInvoice` (api.js lines 30-37) for
a non-ok response: start from `` `HTTP ${response.status}` ``; if
`response.json()` resolves, replace it by
`err.detail || err.errors?.join("\n") || detail`; a body-parse failure is
swallowed.  The message is what the thrown `Error` carries. -/
def errorDetail (status : Nat) (body : Except String ApiBody) : String :=
  let base := "HTTP " ++ Nat.repr status
  match body with
  | .error _ => base
  | .ok err => jsOrElse err.detail (jsOrElse (err.errors.map (String.intercalate "\n")) base)

deriving instance DecidableEq for Except

/-- The outcome of the `fetch` inside `generateInvoice`: either a
delivered HTTP response (status plus the outcome of `response.json()`),
or a rejected promise (network exception) with its message. -/
inductive FetchOutcome where
  | response (status : Nat) (body : Except String ApiBody)
  | networkError (msg : String)
deriving DecidableEq, Repr

/-- What awaiting `generateInvoice` produces in the click handler: the
parsed body, or a thrown `Error` with its message. -/
inductive TransportOutcome where
  | resolved (result : ApiBody)
  | rejected (msg : String)
deriving DecidableEq, Repr

/-- `generateInvoice` from `api.js`, with the fetch outcome explicit: a
network exception propagates; a non-ok status throws the normalized
`errorDetail` message; an ok status returns `await response.json()`,
whose own parse failure propagates. -/
def generateInvoice (fetched : FetchOutcome) : TransportOutcome :=
  match fetched with
  | .networkError m => .rejected m
  | .response status body =>
      if respOk status then
        match body with
        | .ok j => .resolved j
        | .error m => .rejected m
      else .rejected (errorDetail status body)

/-- Comma grouping on a reversed digit list: after every three digits a
`,` is inserted when more digits follow.  Working on the reversed list
puts the separators at thousands positions. -/
def groupRev : List Char → List Char
  | a :: b :: c :: d :: rest => a :: b :: c :: ',' :: groupRev (d :: rest)
  | l => l

/-- en-US thousands grouping of a decimal numeral. -/
def insertThousands (s : String) : String :=
  String.mk (groupRev s.data.reverse).reverse

/-- The cents part rendered to exactly two digits. -/
def pad2 (n : Nat) : String :=
  if n < 10 then "0" ++ Nat.repr n else Nat.repr n

/-- `x.toLocaleString("en-US", ...)` with `minimumFractionDigits: 2`, for
a non-negative amount `x` of `cents / 100` dollars: the integer dollar
part with en-US thousands separators, a decimal point, and the cents
rendered to two digits. -/
def toLocaleStringUSDCents (cents : Nat) : String :=
  insertThousands (Nat.repr (cents / 100)) ++ "." ++ pad2 (cents % 100)

/-- `showResults` from `app.js`, projected to the tracked DOM state:
unhides the results section, hides the error section, and writes the
formatted grand total and contract number.  (`toLocaleStringUSDCents`
below models `toLocaleString("en-US", ...)` with two minimum fraction
digits on a whole-cents amount.) -/
def showResults (result : ApiBody) (d : DomState) : DomState :=
  { d with
    resultsHidden := false
    errorHidden := true
    grandTotalText := "$" ++ toLocaleStringUSDCents result.summary.grand_total_usd_cents
    contractNumberText := result.summary.contract_number }

/-- `showError` from `app.js`: unhides the error section, hides the
results section, and writes the message. -/
def showError (msg : String) (d : DomState) : DomState :=
  { d with errorHidden := false, resultsHidden := true, errorText := msg }

/-- The multipart payload `generateInvoice` builds: the PO slot, every
timesheet under the repeated `timesheets` field, the template slot, the
serialized engineer config, and the strict flag as `"true"`/`"false"`.
The two single-file slots are carried as options because the click
handler forwards the module variables without re-checking them. -/
structure NetRequest where
  po_pdf : Option JsFile
  timesheets : List JsFile
  template : Option JsFile
  engineer_config : String
  strict : String
deriving DecidableEq, Repr

/-- The full view-controller state: the file selection, the stored
`lastResult`, and the tracked DOM surface. -/
structure AppState where
  sel : SelectionState
  lastResult : Option ApiBody
  dom : DomState
deriving DecidableEq, Repr

/-- `result.errors?.join("\n") || "Unknown error"` from the click
handler: absent `errors`, and a join that is the empty string, both fall
back to `"Unknown error"`. -/
def errorsJoinOrUnknown : Option (List String) → String
  | some l =>
      let j := String.intercalate "\n" l
      if j = "" then "Unknown error" else j
  | none => "Unknown error"

/-- The generate-button click handler of `app.js`.  Host effects are
explicit parameters: `cfgParse` is the outcome of
`JSON.parse(configTextarea.value)` (`.error` carries the exception
message; `.ok` carries the parsed config, represented by its
serialization, which `generateInvoice` re-stringifies into the form
data); `strict` is the checkbox; `transport` is what awaiting
`generateInvoice` yields.  Returns the new state together with the list
of network requests dispatched during the run.  The source order is kept:
parse guard with early return; status shown / result surfaces hidden /
button disabled before dispatch; `lastResult` assigned as soon as the
call resolves; `showResults` or `showError` by the success flag; the
catch arm wraps the thrown message; the `finally` arm hides the status
and recomputes the button from the selection. -/
def handleGenerateClick (cfgParse : Except String String) (strict : Bool)
    (transport : TransportOutcome) (st : AppState) : AppState × List NetRequest :=
  match cfgParse with
  | .error m => ({ st with dom := showError ("Invalid JSON config: " ++ m) st.dom }, [])
  | .ok cfg =>
      let d0 : DomState :=
        { st.dom with
          statusHidden := false
          resultsHidden := true
          errorHidden := true
          statusText := "Processing... This may take 10-30 seconds."
          generateBtnDisabled := true }
      let req : NetRequest :=
        { po_pdf := st.sel.poPdf
          timesheets := st.sel.timesheetFiles
          template := st.sel.templateFile
          engineer_config := cfg
          strict := if strict then "true" else "false" }
      let st1 : AppState :=
        match transport with
        | .resolved result =>
            let stR : AppState := { st with dom := d0, lastResult := some result }
            if result.success then { stR with dom := showResults result stR.dom }
            else { stR with dom := showError (errorsJoinOrUnknown result.errors) stR.dom }
        | .rejected m => { st with dom := showError ("Request failed: " ++ m) d0 }
      let d2 : DomState := { st1.dom with statusHidden := true }
      ({ st1 with dom := updateGenerateBtn st1.sel d2 }, [req])

/-- C3: when the configuration text is not valid JSON (`JSON.parse`
throws with message `m`), the click handler dispatches no network
request, shows an error naming the JSON parse problem, and leaves the
selection state and the stored result unchanged. -/
theorem invalidConfig_no_request_and_error
    (st : AppState) (strict : Bool) (transport : TransportOutcome) (m : String) :
    (handleGenerateClick (.error m) strict transport st).2 = []
    ∧ (handleGenerateClick (.error m) strict transport st).1.dom.errorText
        = "Invalid JSON config: " ++ m
    ∧ (handleGenerateClick (.error m) strict transport st).1.dom.errorHidden = false
    ∧ (handleGenerateClick (.error m) strict transport st).1.sel = st.sel
    ∧ (handleGenerateClick (.error m) strict transport st).1.lastResult = st.lastResult := by
  refine ⟨rfl, rfl, rfl, rfl, rfl⟩

/-- The page before any interaction: nothing selected, no stored result,
all three sections hidden, button disabled. -/
def initialDomState : DomState :=
  ⟨true, true, true, "", "", "", "", true⟩

/-- Initial view-controller state. -/
def initialAppState : AppState :=
  ⟨⟨none, [], none⟩, none, initialDomState⟩

/-- The fallback chain exactly as the claim words it: the `detail` field
of the JSON error body if present, otherwise a generic message naming
the HTTP status code (the raw-exception-message step is the
`networkError` branch of the fetch, not a function of the body). -/
def errorDetailClaimed (status : Nat) (body : Except String ApiBody) : String :=
  match body with
  | .ok err =>
      match err.detail with
      | some d => d
      | none => "HTTP " ++ Nat.repr status
  | .error _ => "HTTP " ++ Nat.repr status

/-- C4 counterexample: a 400 response whose body has no `detail` but
`errors = ["A", "B"]`.  The code's chain surfaces the joined errors
`"A\nB"`, not the claim's generic `"HTTP 400"`. -/
theorem errorDetail_claimed_chain_counterexample :
    errorDetail 400 (.ok ⟨false, some ["A", "B"], none, ⟨0, ""⟩⟩) = "A\nB"
    ∧ errorDetailClaimed 400 (.ok ⟨false, some ["A", "B"], none, ⟨0, ""⟩⟩) = "HTTP 400"
    ∧ ("A\nB" : String) ≠ "HTTP 400"
    ∧ (handleGenerateClick (.ok "cfg") false
        (generateInvoice (.response 400 (.ok ⟨false, some ["A", "B"], none, ⟨0, ""⟩⟩)))
        initialAppState).1.dom.errorText = "Request failed: A\nB" := by
  refine ⟨rfl, rfl, by decide, rfl⟩

/-- The newline-join of the `errors` array when it is present and joins
to a non-empty string, else the given generic message. -/
def joinedErrorsOr (errors : Option (List String)) (generic : String) : String :=
  match errors with
  | some l => if String.intercalate "\n" l = "" then generic else String.intercalate "\n" l
  | none => generic

/-- The amended fallback chain: the non-empty `detail` field if present,
otherwise the `errors` array joined by newlines when that join is
non-empty, otherwise the generic message naming the HTTP status. -/
def errorDetailAmended (status : Nat) (body : Except String ApiBody) : String :=
  let generic := "HTTP " ++ Nat.repr status
  match body with
  | .error _ => generic
  | .ok err =>
      match err.detail with
      | some d => if d = "" then joinedErrorsOr err.errors generic else d
      | none => joinedErrorsOr err.errors generic

/-- C4 amended: for a non-ok response the thrown message follows the
four-step chain non-empty `detail` → non-empty newline-join of `errors`
→ generic HTTP-status message, the click handler surfaces every thrown
message prefixed `"Request failed: "`, and a network exception surfaces
its raw message under the same prefix. -/
theorem errorDetail_full_fallback_chain :
    (∀ (status : Nat) (body : Except String ApiBody),
        errorDetail status body = errorDetailAmended status body)
    ∧ (∀ (st : AppState) (cfg : String) (strict : Bool) (m : String),
        (handleGenerateClick (.ok cfg) strict (generateInvoice (.networkError m)) st).1.dom.errorText
          = "Request failed: " ++ m)
    ∧ (∀ (st : AppState) (cfg : String) (strict : Bool) (status : Nat)
        (body : Except String ApiBody), respOk status = false →
        (handleGenerateClick (.ok cfg) strict (generateInvoice (.response status body)) st).1.dom.errorText
          = "Request failed: " ++ errorDetail status body) := by
  refine ⟨?_, ?_, ?_⟩
  · intro status body
    rcases body with err | body
    · rfl
    · rcases body with ⟨succ, errors, detail, summ⟩
      rcases detail with _ | d <;> rcases errors with _ | l <;>
        simp only [errorDetail, errorDetailAmended, jsOrElse, jsTruthy, joinedErrorsOr,
          Option.map_none', Option.map_some'] <;>
        repeat' split <;> simp_all
  · intro st cfg strict m
    rfl
  · intro st cfg strict status body h
    simp only [generateInvoice, h, Bool.false_eq_true, if_false]
    rfl

/-- Witness for the amended C4 theorem: a 500 response whose body fails
to parse surfaces the generic status message under the prefix. -/
theorem errorDetail_full_fallback_chain_witness :
    (handleGenerateClick (.ok "cfg") true
        (generateInvoice (.response 500 (.error "SyntaxError"))) initialAppState).1.dom.errorText
      = "Request failed: HTTP 500" := by
  rw [errorDetail_full_fallback_chain.2.2 initialAppState "cfg" true 500
    (.error "SyntaxError") (by decide)]
  decide

/-- C5 counterexample: `success = false` with the non-empty errors list
`[""]`.  Its newline-join is `""`, which is falsy in JS, so the banner
shows the fallback `"Unknown error"` rather than the join. -/
theorem errorsBanner_falsy_join_counterexample :
    (handleGenerateClick (.ok "cfg") false
        (.resolved ⟨false, some [""], none, ⟨0, ""⟩⟩) initialAppState).1.dom.errorText
      = "Unknown error"
    ∧ String.intercalate "\n" [""] = ""
    ∧ ("Unknown error" : String) ≠ ("" : String) := by
  refine ⟨rfl, rfl, by decide⟩

/-- C5 amended: for every response with `success = false` and an
`errors` list whose newline-join is non-empty, the banner shows exactly
that join (in particular `["A", "B"]` gives `"A\nB"`), and the results
section is not shown. -/
theorem errorsBanner_shows_joined_errors
    (st : AppState) (cfg : String) (strict : Bool) (r : ApiBody) (l : List String)
    (hs : r.success = false) (he : r.errors = some l)
    (hj : String.intercalate "\n" l ≠ "") :
    (handleGenerateClick (.ok cfg) strict (.resolved r) st).1.dom.errorText
        = String.intercalate "\n" l
    ∧ (handleGenerateClick (.ok cfg) strict (.resolved r) st).1.dom.errorHidden = false
    ∧ (handleGenerateClick (.ok cfg) strict (.resolved r) st).1.dom.resultsHidden = true := by
  simp [handleGenerateClick, hs, he, errorsJoinOrUnknown, hj, showError, updateGenerateBtn]

/-- Witness for the amended C5 theorem at `errors = ["A", "B"]`: the
banner text is `"A\nB"` and the results section stays hidden. -/
theorem errorsBanner_shows_joined_errors_witness :
    (handleGenerateClick (.ok "cfg") false
        (.resolved ⟨false, some ["A", "B"], none, ⟨0, ""⟩⟩) initialAppState).1.dom.errorText
      = "A\nB"
    ∧ (handleGenerateClick (.ok "cfg") false
        (.resolved ⟨false, some ["A", "B"], none, ⟨0, ""⟩⟩) initialAppState).1.dom.errorHidden
      = false
    ∧ (handleGenerateClick (.ok "cfg") false
        (.resolved ⟨false, some ["A", "B"], none, ⟨0, ""⟩⟩) initialAppState).1.dom.resultsHidden
      = true := by
  obtain ⟨h1, h2, h3⟩ := errorsBanner_shows_joined_errors initialAppState "cfg" false
    ⟨false, some ["A", "B"], none, ⟨0, ""⟩⟩ ["A", "B"] rfl rfl (by decide)
  refine ⟨?_, h2, h3⟩
  rw [h1]
  decide

/-- A stored successful result, for the C8 counterexample. -/
def priorResult : ApiBody :=
  ⟨true, none, none, ⟨10000, "C-0"⟩⟩

/-- A logically failed response, for the C8 counterexample. -/
def failedResult : ApiBody :=
  ⟨false, some ["bad PO"], none, ⟨0, ""⟩⟩

/-- C8 counterexample: a generation attempt that resolves with
`success = false` — not a successful response — still replaces
`lastResult` wholesale, because `lastResult = result` precedes the
success check. -/
theorem lastResult_replaced_by_failed_response :
    failedResult.success = false
    ∧ (handleGenerateClick (.ok "cfg") false (.resolved failedResult)
        { initialAppState with lastResult := some priorResult }).1.lastResult
      = some failedResult
    ∧ some failedResult ≠ some priorResult := by
  refine ⟨rfl, rfl, by decide⟩

/-- C8 amended: `lastResult` is replaced wholesale exactly when
`generateInvoice` resolves — whatever the success flag says — while a
config-parse failure or a rejected transport leaves it unchanged. -/
theorem lastResult_replaced_iff_transport_resolved (st : AppState) (strict : Bool) :
    (∀ (m : String) (t : TransportOutcome),
        (handleGenerateClick (.error m) strict t st).1.lastResult = st.lastResult)
    ∧ (∀ (cfg m : String),
        (handleGenerateClick (.ok cfg) strict (.rejected m) st).1.lastResult = st.lastResult)
    ∧ (∀ (cfg : String) (r : ApiBody),
        (handleGenerateClick (.ok cfg) strict (.resolved r) st).1.lastResult = some r) := by
  refine ⟨fun m t => rfl, fun cfg m => rfl, fun cfg r => ?_⟩
  simp only [handleGenerateClick]
  split <;> rfl

/-- The rendered string with its thousands separators removed. -/
def stripCommas (s : String) : String :=
  String.mk (s.data.filter (fun c => c != ','))

/-- The number of characters after the last decimal point of a rendered
number. -/
def fractionDigitCount (s : String) : Nat :=
  (s.data.reverse.takeWhile (fun c => c != '.')).length

theorem dot_data : (".".data : List Char) = ['.'] := rfl

theorem digitChar_lt10_ne_comma_dot :
    ∀ m : Nat, m < 10 → Nat.digitChar m ≠ ',' ∧ Nat.digitChar m ≠ '.' := by
  decide

theorem toDigitsCore_ne_comma_dot :
    ∀ (fuel n : Nat) (ds : List Char),
      (∀ c ∈ ds, c ≠ ',' ∧ c ≠ '.') →
      ∀ c ∈ Nat.toDigitsCore 10 fuel n ds, c ≠ ',' ∧ c ≠ '.'
  | 0, _, _, h => h
  | fuel + 1, n, ds, h => by
    rw [Nat.toDigitsCore]
    have hcons : ∀ c ∈ Nat.digitChar (n % 10) :: ds, c ≠ ',' ∧ c ≠ '.' := by
      intro c hc
      rcases List.mem_cons.mp hc with h1 | h2
      · subst h1; exact digitChar_lt10_ne_comma_dot _ (Nat.mod_lt _ (by norm_num))
      · exact h c h2
    split
    · exact hcons
    · exact toDigitsCore_ne_comma_dot fuel (n / 10) _ hcons

theorem repr_ne_comma_dot (n : Nat) : ∀ c ∈ (Nat.repr n).data, c ≠ ',' ∧ c ≠ '.' := by
  intro c hc
  exact toDigitsCore_ne_comma_dot (n + 1) n [] (by simp) c hc

theorem filter_groupRev : ∀ l : List Char,
    (groupRev l).filter (fun c => c != ',') = l.filter (fun c => c != ',')
  | [] => rfl
  | [_] => rfl
  | [_, _] => rfl
  | [_, _, _] => rfl
  | a :: b :: c :: d :: rest => by
    have ih := filter_groupRev (d :: rest)
    simp only [groupRev, List.filter_cons, ih]
    norm_num

theorem takeWhile_append_of_all {p : Char → Bool} :
    ∀ (l₁ : List Char) (x : Char) (l₂ : List Char),
      (∀ c ∈ l₁, p c = true) → p x = false →
      (l₁ ++ x :: l₂).takeWhile p = l₁
  | [], x, l₂, _, hx => by simp [hx]
  | a :: l₁, x, l₂, h, hx => by
    have ha : p a = true := h a (List.mem_cons_self _ _)
    have ih := takeWhile_append_of_all l₁ x l₂ (fun c hc => h c (List.mem_cons_of_mem _ hc)) hx
    simp [List.takeWhile_cons, ha, ih]

theorem pad2_spec : ∀ m : Nat, m < 100 →
    (pad2 m).data.length = 2 ∧ ∀ c ∈ (pad2 m).data, c ≠ ',' ∧ c ≠ '.' := by
  decide

theorem toLocaleStringUSDCents_data (cents : Nat) :
    (toLocaleStringUSDCents cents).data
      = (groupRev (Nat.repr (cents / 100)).data.reverse).reverse
        ++ ('.' :: (pad2 (cents % 100)).data) := by
  simp only [toLocaleStringUSDCents, String.data_append, insertThousands, dot_data,
    List.append_assoc, List.singleton_append]

theorem stripCommas_toLocaleString (cents : Nat) :
    stripCommas (toLocaleStringUSDCents cents)
      = Nat.repr (cents / 100) ++ "." ++ pad2 (cents % 100) := by
  have hpad := pad2_spec (cents % 100) (Nat.mod_lt _ (by norm_num))
  have hrepr := repr_ne_comma_dot (cents / 100)
  have h1 : (Nat.repr (cents / 100)).data.filter (fun c => c != ',')
      = (Nat.repr (cents / 100)).data := by
    rw [List.filter_eq_self]
    intro c hc
    simpa using (hrepr c hc).1
  have h2 : List.filter (fun c => c != ',') ('.' :: (pad2 (cents % 100)).data)
      = '.' :: (pad2 (cents % 100)).data := by
    rw [List.filter_eq_self]
    intro c hc
    rcases List.mem_cons.mp hc with h | h
    · subst h; decide
    · simpa using (hpad.2 c h).1
  have hgoal : (stripCommas (toLocaleStringUSDCents cents)).data
      = (Nat.repr (cents / 100) ++ "." ++ pad2 (cents % 100)).data := by
    show (toLocaleStringUSDCents cents).data.filter (fun c => c != ',') = _
    rw [toLocaleStringUSDCents_data, List.filter_append, List.filter_reverse, filter_groupRev,
      List.filter_reverse, List.reverse_reverse, h1, h2]
    simp [String.data_append, dot_data]
  exact String.ext hgoal

theorem fractionDigitCount_toLocaleString (cents : Nat) :
    fractionDigitCount (toLocaleStringUSDCents cents) = 2 := by
  have hpad := pad2_spec (cents % 100) (Nat.mod_lt _ (by norm_num))
  show ((toLocaleStringUSDCents cents).data.reverse.takeWhile (fun c => c != '.')).length = 2
  rw [toLocaleStringUSDCents_data, List.reverse_append, List.reverse_cons]
  rw [List.append_assoc, List.singleton_append]
  rw [takeWhile_append_of_all ((pad2 (cents % 100)).data.reverse) '.' _
    (by
      intro c hc
      simpa using (hpad.2 c (List.mem_reverse.mp hc)).2)
    (by decide)]
  rw [List.length_reverse]
  exact hpad.1

/-- C6: the grand total rendered by `showResults` is
`summary.grand_total_usd` formatted with a leading dollar sign, en-US
thousands separators, and two fraction digits: the rendered text is
`"$"` followed by the formatted amount; removing the separators from the
formatted amount recovers the plain `dollars.cents` decimal numeral (so
grouping only inserts commas and preserves every digit); the fraction
part after the decimal point always has exactly two digits (hence at
least two); and in particular 1234.50 dollars renders as `"$1,234.50"`. -/
theorem grandTotal_currency_format :
    (∀ (r : ApiBody) (d : DomState),
        (showResults r d).grandTotalText
          = "$" ++ toLocaleStringUSDCents r.summary.grand_total_usd_cents)
    ∧ (∀ cents : Nat,
        stripCommas (toLocaleStringUSDCents cents)
          = Nat.repr (cents / 100) ++ "." ++ pad2 (cents % 100))
    ∧ (∀ cents : Nat, fractionDigitCount (toLocaleStringUSDCents cents) = 2)
    ∧ (showResults ⟨true, none, none, ⟨123450, "PO-1"⟩⟩ initialDomState).grandTotalText
        = "$1,234.50" := by
  refine ⟨fun r d => rfl, stripCommas_toLocaleString, fractionDigitCount_toLocaleString, ?_⟩
  decide

/-- The two operations that toggle the result surfaces: a `showResults`
call (carrying its response) or a `showError` call (carrying its
message). -/
inductive BannerOp where
  | results (r : ApiBody)
  | bannerError (msg : String)
deriving DecidableEq, Repr

/-- Run one banner operation on the DOM state. -/
def applyBannerOp : BannerOp → DomState → DomState
  | .results r, d => showResults r d
  | .bannerError m, d => showError m d

/-- Run a sequence of banner operations, first operation first. -/
def applyBannerOps (ops : List BannerOp) (d : DomState) : DomState :=
  ops.foldl (fun d op => applyBannerOp op d) d

theorem applyBannerOp_exclusive (op : BannerOp) (d : DomState) :
    (applyBannerOp op d).resultsHidden = true ∨ (applyBannerOp op d).errorHidden = true := by
  cases op
  · exact Or.inr rfl
  · exact Or.inl rfl

theorem applyBannerOps_preserves_exclusive :
    ∀ (ops : List BannerOp) (d : DomState),
      (d.resultsHidden = true ∨ d.errorHidden = true) →
      ((applyBannerOps ops d).resultsHidden = true ∨ (applyBannerOps ops d).errorHidden = true)
  | [], _, h => h
  | op :: ops, d, _ =>
      applyBannerOps_preserves_exclusive ops (applyBannerOp op d) (applyBannerOp_exclusive op d)

/-- C10: the results surface and the error banner are never both
visible: `showResults` hides the error section and `showError` hides the
results section, so after any first operation followed by any further
sequence of these operations, at least one of the two sections is
hidden — whatever state the page started in. -/
theorem resultsError_mutually_exclusive (op : BannerOp) (ops : List BannerOp) (d : DomState) :
    (applyBannerOps ops (applyBannerOp op d)).resultsHidden = true
    ∨ (applyBannerOps ops (applyBannerOp op d)).errorHidden = true :=
  applyBannerOps_preserves_exclusive ops (applyBannerOp op d) (applyBannerOp_exclusive op d)

/-- The state observed by the single-flight argument: the selection, the
generate button, and the number of dispatched generation requests whose
handler run has not yet reached its `finally` block. -/
structure UiState where
  sel : SelectionState
  generateBtnDisabled : Bool
  inflight : Nat
deriving DecidableEq, Repr

/-- The user-driven events of `app.js`, each an atomic handler run of
the single-threaded page. -/
inductive UiEvent where
  | selectPo (f : JsFile)
  | removePo
  | addTimesheets (fs : List JsFile)
  | removeTimesheet (i : Nat)
  | selectTemplate (f : JsFile)
  | removeTemplate
  | clickGenerate (parseOk : Bool)
  | requestCompletes
deriving DecidableEq, Repr

/-- One handler run.  File handlers mutate the selection and call
`updateGenerateBtn` — also while a request is in flight, since the
dropzones are never disabled (the timesheet-removal handler is the
exception: its `ReferenceError`, see `tsRemoveClick`, aborts it before
`updateGenerateBtn`).  A click on the generate button runs its handler
only when the button is enabled; a parse failure returns before
dispatch, otherwise a request is dispatched and the button disabled.
`requestCompletes` is the `finally` block of one outstanding dispatch:
it decrements the in-flight count and recomputes the button from the
selection. -/
def stepUi : UiEvent → UiState → UiState
  | .selectPo f, s =>
      let sel := { s.sel with poPdf := some f }
      { s with sel := sel, generateBtnDisabled := !(readyToSubmit sel) }
  | .removePo, s =>
      let sel := { s.sel with poPdf := none }
      { s with sel := sel, generateBtnDisabled := !(readyToSubmit sel) }
  | .addTimesheets fs, s =>
      let sel := { s.sel with timesheetFiles := s.sel.timesheetFiles ++ fs }
      { s with sel := sel, generateBtnDisabled := !(readyToSubmit sel) }
  | .removeTimesheet i, s =>
      { s with sel := { s.sel with timesheetFiles := jsSplice s.sel.timesheetFiles i } }
  | .selectTemplate f, s =>
      let sel := { s.sel with templateFile := some f }
      { s with sel := sel, generateBtnDisabled := !(readyToSubmit sel) }
  | .removeTemplate, s =>
      let sel := { s.sel with templateFile := none }
      { s with sel := sel, generateBtnDisabled := !(readyToSubmit sel) }
  | .clickGenerate parseOk, s =>
      if s.generateBtnDisabled then s
      else if parseOk then { s with inflight := s.inflight + 1, generateBtnDisabled := true }
      else s
  | .requestCompletes, s =>
      if s.inflight = 0 then s
      else { s with inflight := s.inflight - 1,
                    generateBtnDisabled := !(readyToSubmit s.sel) }

/-- Run a sequence of events, first event first. -/
def runUi (s : UiState) (evs : List UiEvent) : UiState :=
  evs.foldl (fun s e => stepUi e s) s

/-- The page before any interaction: nothing selected, button disabled,
nothing in flight. -/
def initialUiState : UiState :=
  ⟨⟨none, [], none⟩, true, 0⟩

/-- C9 counterexample: select a PO, a timesheet and a template, click
generate (one request in flight, button disabled), then drop a second
timesheet — its handler calls `updateGenerateBtn`, which re-enables the
button from the selection alone — and click generate again: two
generation requests are now in flight, and mid-flight the submit control
was enabled. -/
theorem two_requests_in_flight_reachable :
    (runUi initialUiState
        [.selectPo ⟨"po.pdf", 100⟩, .addTimesheets [⟨"t1.xlsx", 100⟩],
         .selectTemplate ⟨"tpl.xlsx", 100⟩, .clickGenerate true,
         .addTimesheets [⟨"t2.xlsx", 100⟩], .clickGenerate true]).inflight = 2
    ∧ (runUi initialUiState
        [.selectPo ⟨"po.pdf", 100⟩, .addTimesheets [⟨"t1.xlsx", 100⟩],
         .selectTemplate ⟨"tpl.xlsx", 100⟩, .clickGenerate true,
         .addTimesheets [⟨"t2.xlsx", 100⟩]]).generateBtnDisabled = false
    ∧ (runUi initialUiState
        [.selectPo ⟨"po.pdf", 100⟩, .addTimesheets [⟨"t1.xlsx", 100⟩],
         .selectTemplate ⟨"tpl.xlsx", 100⟩, .clickGenerate true,
         .addTimesheets [⟨"t2.xlsx", 100⟩]]).inflight = 1 := by
  refine ⟨rfl, rfl, rfl⟩

/-- Does the event run a file-selection or file-removal handler? -/
def isFileEvent : UiEvent → Bool
  | .selectPo _ => true
  | .removePo => true
  | .addTimesheets _ => true
  | .removeTimesheet _ => true
  | .selectTemplate _ => true
  | .removeTemplate => true
  | .clickGenerate _ => false
  | .requestCompletes => false

/-- Checks that along the run every file event fires only while no
request is in flight. -/
def runSafe : UiState → List UiEvent → Bool
  | _, [] => true
  | s, e :: evs => (!(isFileEvent e) || decide (s.inflight = 0)) && runSafe (stepUi e s) evs

/-- The single-flight invariant: never more than one request out, and
while one is out the button is disabled. -/
def singleFlightInv (s : UiState) : Prop :=
  s.inflight ≤ 1 ∧ (s.inflight = 1 → s.generateBtnDisabled = true)

theorem stepUi_preserves_singleFlightInv (e : UiEvent) (s : UiState)
    (hinv : singleFlightInv s) (hsafe : isFileEvent e = true → s.inflight = 0) :
    singleFlightInv (stepUi e s) := by
  obtain ⟨h1, h2⟩ := hinv
  cases e with
  | selectPo f =>
      have h0 := hsafe rfl
      exact ⟨by simp [stepUi, h0], by simp [stepUi, h0]⟩
  | removePo =>
      have h0 := hsafe rfl
      exact ⟨by simp [stepUi, h0], by simp [stepUi, h0]⟩
  | addTimesheets fs =>
      have h0 := hsafe rfl
      exact ⟨by simp [stepUi, h0], by simp [stepUi, h0]⟩
  | removeTimesheet i =>
      have h0 := hsafe rfl
      exact ⟨by simp [stepUi, h0], by simp [stepUi, h0]⟩
  | selectTemplate f =>
      have h0 := hsafe rfl
      exact ⟨by simp [stepUi, h0], by simp [stepUi, h0]⟩
  | removeTemplate =>
      have h0 := hsafe rfl
      exact ⟨by simp [stepUi, h0], by simp [stepUi, h0]⟩
  | clickGenerate parseOk =>
      by_cases hd : s.generateBtnDisabled = true
      · simp [stepUi, hd]
        exact ⟨h1, h2⟩
      · have hz : s.inflight = 0 := by
          rcases Nat.lt_or_ge s.inflight 1 with h | h
          · omega
          · have : s.inflight = 1 := by omega
            exact absurd (h2 this) hd
        by_cases hp : parseOk
        · simp [stepUi, hd, hp, hz]
          exact ⟨Nat.le_refl 1, fun _ => rfl⟩
        · simp [stepUi, hd, hp]
          exact ⟨h1, h2⟩
  | requestCompletes =>
      by_cases hz : s.inflight = 0
      · simp [stepUi, hz]
        exact ⟨h1, h2⟩
      · constructor
        · simp [stepUi, hz]
          omega
        · intro hcontra
          simp [stepUi, hz] at hcontra
          omega

theorem runUi_preserves_singleFlightInv :
    ∀ (evs : List UiEvent) (s : UiState),
      singleFlightInv s → runSafe s evs = true → singleFlightInv (runUi s evs)
  | [], _, hinv, _ => hinv
  | e :: evs, s, hinv, hsafe => by
    have hsplit := (Bool.and_eq_true _ _).mp hsafe
    have hfile : isFileEvent e = true → s.inflight = 0 := by
      intro hf
      have := hsplit.1
      simp [hf] at this
      exact this
    exact runUi_preserves_singleFlightInv evs (stepUi e s)
      (stepUi_preserves_singleFlightInv e s hinv hfile) hsplit.2

/-- C9 amended: provided no file-selection or file-removal handler runs
while a generation request is in flight, at most one request is ever in
flight from the initial state, and whenever one is in flight the submit
control is disabled.  (Without that proviso the property fails: a file
drop during a flight re-enables the control, see the counterexample.) -/
theorem single_flight_without_midflight_file_events (evs : List UiEvent)
    (hsafe : runSafe initialUiState evs = true) :
    (runUi initialUiState evs).inflight ≤ 1
    ∧ ((runUi initialUiState evs).inflight = 1
        → (runUi initialUiState evs).generateBtnDisabled = true) :=
  runUi_preserves_singleFlightInv evs initialUiState ⟨by decide, by decide⟩ hsafe

/-- Witness for the amended C9 theorem: a full select-submit-complete-
resubmit run with all file events before the first dispatch keeps the
in-flight count at most one. -/
theorem single_flight_without_midflight_file_events_witness :
    (runUi initialUiState
        [.selectPo ⟨"po.pdf", 100⟩, .addTimesheets [⟨"t1.xlsx", 100⟩],
         .selectTemplate ⟨"tpl.xlsx", 100⟩, .clickGenerate true,
         .requestCompletes, .clickGenerate true]).inflight ≤ 1 :=
  (single_flight_without_midflight_file_events
    [.selectPo ⟨"po.pdf", 100⟩, .addTimesheets [⟨"t1.xlsx", 100⟩],
     .selectTemplate ⟨"tpl.xlsx", 100⟩, .clickGenerate true,
     .requestCompletes, .clickGenerate true] (by decide)).1

end InvoiceAutomation
